import Mathlib

/-
  Shallow embedding of src/mosaic.py (the DroneDeploy mosaic builder).

  Floating-point arithmetic of the source is modelled over the exact reals.
  The geodesic distance primitive (geopy vincenty) and the raster capability
  (PIL) are external collaborators of this repository; the distance primitive
  is passed around as an explicit function argument `dist`, and the raster
  canvas is modelled by the record of arguments the code hands to the
  capability.
-/

namespace Mosaic

/-- IMAGE_WIDTH constant from src/mosaic.py: images are 4000 pixels wide. -/
def IMAGE_WIDTH : ℝ := 4000

/-- IMAGE_HEIGHT constant from src/mosaic.py: images are 3000 pixels tall. -/
def IMAGE_HEIGHT : ℝ := 3000

/-- WIDTH_MM constant: sensor width in millimeters. -/
def WIDTH_MM : ℝ := 36

/-- HEIGHT_MM constant: sensor height in millimeters. -/
def HEIGHT_MM : ℝ := 26

/-- FOCAL_LENGTH constant: focal length in millimeters. -/
def FOCAL_LENGTH : ℝ := 20

/-- The DroneImage namedtuple: filename lat long altitude yaw pitch roll. -/
structure DroneImage where
  filename : String
  lat : ℝ
  long : ℝ
  altitude : ℝ
  yaw : ℝ
  pitch : ℝ
  roll : ℝ

/-- A (latitude, longitude) pair, as the Python code passes tuples around. -/
abbrev Point : Type := ℝ × ℝ

/-- The type of the external geodesic distance primitive: `vincenty(p1, p2).ft`.
Modelled from the spec: the repository treats the great-circle/geodesic
distance calculation as a supplied primitive, so it is an explicit function
argument here; properties the spec ascribes to it (nonnegative magnitude,
zero at identical points) appear as hypotheses where a claim needs them. -/
abbrev Dist : Type := Point → Point → ℝ

/-- math.radians: degrees to radians. -/
noncomputable def radians (d : ℝ) : ℝ := d * (Real.pi / 180)

/-- math.degrees: radians to degrees. -/
noncomputable def degrees (r : ℝ) : ℝ := r * (180 / Real.pi)

/-- distance_between_latlong_points_in_feet: delegates to the primitive. -/
def distance_between_latlong_points_in_feet (dist : Dist) (point1 point2 : Point) : ℝ :=
  dist point1 point2

/-- horiz_distance_between_latlong_points_in_feet: fixes both latitudes at 38. -/
def horiz_distance_between_latlong_points_in_feet (dist : Dist) (point1 point2 : Point) : ℝ :=
  distance_between_latlong_points_in_feet dist (38, point1.2) (38, point2.2)

/-- vert_distance_between_latlong_points_in_feet: fixes both longitudes at -123. -/
def vert_distance_between_latlong_points_in_feet (dist : Dist) (point1 point2 : Point) : ℝ :=
  distance_between_latlong_points_in_feet dist (point1.1, -123) (point2.1, -123)

/-- angle_of_view from src/mosaic.py: 2 * atan(side / (2 * focal)), in degrees. -/
noncomputable def angle_of_view (side_mm focal_len_mm : ℝ) : ℝ :=
  degrees (2 * Real.arctan (side_mm / (2 * focal_len_mm)))

/-- vertical_angle_of_view: angle_of_view of HEIGHT_MM and FOCAL_LENGTH. -/
noncomputable def vertical_angle_of_view : ℝ := angle_of_view HEIGHT_MM FOCAL_LENGTH

/-- horizontal_angle_of_view: angle_of_view of WIDTH_MM and FOCAL_LENGTH. -/
noncomputable def horizontal_angle_of_view : ℝ := angle_of_view WIDTH_MM FOCAL_LENGTH

/-- meters_to_feet lambda: 3.28084 * meters. -/
def meters_to_feet (meters : ℝ) : ℝ := 3.28084 * meters

/-- feet_to_meters lambda: 0.3048 * feet. -/
def feet_to_meters (feet : ℝ) : ℝ := 0.3048 * feet

/-- Python int() applied to a float: truncation toward zero. -/
noncomputable def truncInt (x : ℝ) : ℤ := if 0 ≤ x then ⌊x⌋ else ⌈x⌉

/-- Mosaic._calculate_pixels_per_foot. The Python body reads
`sum([image.altitude for image in self.images]) / len(images)`, where `images`
is the module-level global, not `self.images`; the embedding therefore takes
the two lists as separate arguments `selfImages` and `globalImages`. -/
noncomputable def calculate_pixels_per_foot (selfImages globalImages : List DroneImage) : ℝ :=
  let average_altitude_meters : ℝ :=
    (selfImages.map (fun image => image.altitude)).sum / (globalImages.length : ℝ)
  let horiz_angle_of_view := horizontal_angle_of_view
  let half_horiz_angle_of_view := horiz_angle_of_view / 2
  let image_width_in_meters :=
    2 * Real.tan (radians half_horiz_angle_of_view) * average_altitude_meters
  let image_width_in_feet := meters_to_feet image_width_in_meters
  IMAGE_WIDTH / image_width_in_feet

/-- Modelled from the spec, §4.3 computeScale: the arithmetic mean altitude is
taken over exactly the images of the mosaic (the sum of self.images altitudes
divided by the length of self.images); kept as a second definition to compare
against the code's `calculate_pixels_per_foot`. -/
noncomputable def computeScale_spec (images : List DroneImage) : ℝ :=
  let meanAltitude : ℝ :=
    (images.map (fun image => image.altitude)).sum / (images.length : ℝ)
  let halfAngle := horizontal_angle_of_view / 2
  let groundWidthMeters := 2 * Real.tan (radians halfAngle) * meanAltitude
  IMAGE_WIDTH / meters_to_feet groundWidthMeters

/-- Mosaic._calculate_vertical_offset: pixels to nudge the image up or down,
from the pitch: ppf * meters_to_feet (altitude * tan (radians pitch)). -/
noncomputable def calculate_vertical_offset (pixels_per_foot : ℝ) (image : DroneImage) : ℝ :=
  let offset_in_meters := image.altitude * Real.tan (radians image.pitch)
  let offset_in_feet := meters_to_feet offset_in_meters
  let offset_in_pixels := pixels_per_foot * offset_in_feet
  offset_in_pixels

/-- Mosaic._calculate_horizontal_offset: pixels to nudge the image left or
right, from the roll: ppf * meters_to_feet (altitude * tan (radians roll)). -/
noncomputable def calculate_horizontal_offset (pixels_per_foot : ℝ) (image : DroneImage) : ℝ :=
  let offset_in_meters := image.altitude * Real.tan (radians image.roll)
  let offset_in_feet := meters_to_feet offset_in_meters
  let offset_in_pixels := pixels_per_foot * offset_in_feet
  offset_in_pixels

/-- The provisional placement center of add_image_to_mosaic, before the
pitch/roll/yaw offsets: `x, y = 2000 + int(pixels_from_left), 1500 +
int(pixels_from_top)`. -/
noncomputable def provisional_center (dist : Dist) (pixels_per_foot : ℝ)
    (top_left_lat_long : Point) (image : DroneImage) : ℝ × ℝ :=
  let imagepos : Point := (image.lat, image.long)
  let feet_from_left :=
    horiz_distance_between_latlong_points_in_feet dist imagepos top_left_lat_long
  let pixels_from_left := feet_from_left * pixels_per_foot
  let feet_from_top :=
    vert_distance_between_latlong_points_in_feet dist imagepos top_left_lat_long
  let pixels_from_top := feet_from_top * pixels_per_foot
  (2000 + (truncInt pixels_from_left : ℝ), 1500 + (truncInt pixels_from_top : ℝ))

/-- The yaw-adjusted (horizontal, vertical) pixel offsets of
add_image_to_mosaic: `xshift = v * sin(radians yaw)`, then
`v = v * cos(radians yaw)` and `h = h - xshift`. -/
noncomputable def adjusted_offsets (pixels_per_foot : ℝ) (image : DroneImage) : ℝ × ℝ :=
  let vertical_offset_pixels := calculate_vertical_offset pixels_per_foot image
  let horizontal_offset_pixels := calculate_horizontal_offset pixels_per_foot image
  let xshift := vertical_offset_pixels * Real.sin (radians image.yaw)
  let vertical_offset_pixels' := vertical_offset_pixels * Real.cos (radians image.yaw)
  let horizontal_offset_pixels' := horizontal_offset_pixels - xshift
  (horizontal_offset_pixels', vertical_offset_pixels')

/-- The final placement center computed by add_image_to_mosaic:
`x += horizontal_offset_pixels; y += vertical_offset_pixels`. -/
noncomputable def add_image_to_mosaic_center (dist : Dist) (pixels_per_foot : ℝ)
    (top_left_lat_long : Point) (image : DroneImage) : ℝ × ℝ :=
  let xy := provisional_center dist pixels_per_foot top_left_lat_long image
  let offsets := adjusted_offsets pixels_per_foot image
  (xy.1 + offsets.1, xy.2 + offsets.2)

/-- The angle add_image_to_mosaic rotates the pasted image by:
`img.rotate(-1 * image.yaw, expand=True)`. -/
def rotation_degrees (image : DroneImage) : ℝ := -1 * image.yaw

/-- One min accumulator update of _get_min_max_long_and_lat:
`if m is None: m = v elif v < m: m = v`. -/
noncomputable def updateMin (m : Option ℝ) (v : ℝ) : Option ℝ :=
  match m with
  | none => some v
  | some m0 => if v < m0 then some v else some m0

/-- One max accumulator update of _get_min_max_long_and_lat:
`if m is None: m = v elif v > m: m = v`. -/
noncomputable def updateMax (m : Option ℝ) (v : ℝ) : Option ℝ :=
  match m with
  | none => some v
  | some m0 => if v > m0 then some v else some m0

/-- The body of the loop in _get_min_max_long_and_lat, updating the four
accumulators (min_long, max_long, min_lat, max_lat) with one image. -/
noncomputable def minmax_step (acc : Option ℝ × Option ℝ × Option ℝ × Option ℝ)
    (image : DroneImage) : Option ℝ × Option ℝ × Option ℝ × Option ℝ :=
  (updateMin acc.1 image.long, updateMax acc.2.1 image.long,
   updateMin acc.2.2.1 image.lat, updateMax acc.2.2.2 image.lat)

/-- Mosaic._get_min_max_long_and_lat: returns
(min_long, max_long, min_lat, max_lat), each None for an empty image list. -/
noncomputable def get_min_max_long_and_lat (images : List DroneImage) :
    Option ℝ × Option ℝ × Option ℝ × Option ℝ :=
  images.foldl minmax_step (none, none, none, none)

/-- Mosaic._get_mosaic_lat_long_corners: returns
((max_lat, min_long), (min_lat, max_long)). -/
noncomputable def get_mosaic_lat_long_corners (images : List DroneImage) :
    (Option ℝ × Option ℝ) × (Option ℝ × Option ℝ) :=
  let mm := get_min_max_long_and_lat images
  ((mm.2.2.2, mm.1), (mm.2.2.1, mm.2.1))

/-- The record of arguments the code hands to the raster capability in
`Image.new("RGBA", (int(horiz_pixels), int(vert_pixels)), "white")`. -/
structure Canvas where
  mode : String
  width : ℤ
  height : ℤ
  color : String

/-- Mosaic._create_mosaic_image: corner-to-corner extent in feet, to pixels
via pixels_per_foot, plus the fixed 4000 x 3000 margin, truncated to ints,
as an RGBA buffer initialized to white. -/
noncomputable def create_mosaic_image (dist : Dist) (pixels_per_foot : ℝ)
    (top_left_lat_long bottom_right_lat_long : Point) : Canvas :=
  let horiz_feet_between_edge_images :=
    horiz_distance_between_latlong_points_in_feet dist top_left_lat_long bottom_right_lat_long
  let vert_feet_between_edge_images :=
    vert_distance_between_latlong_points_in_feet dist top_left_lat_long bottom_right_lat_long
  let horiz_pixels := pixels_per_foot * horiz_feet_between_edge_images + 4000
  let vert_pixels := pixels_per_foot * vert_feet_between_edge_images + 3000
  { mode := "RGBA", width := truncInt horiz_pixels,
    height := truncInt vert_pixels, color := "white" }

/-- Mosaic._calculate_pixels_per_foot with Python's fallible division made
explicit: dividing by `len(images)` of an empty global list, or the final
float division `IMAGE_WIDTH / image_width_in_feet` with a zero divisor,
raises ZeroDivisionError in the source. -/
noncomputable def calculate_pixels_per_foot_checked (selfImages globalImages : List DroneImage) :
    Except String ℝ :=
  if globalImages.length = 0 then .error "ZeroDivisionError"
  else
    let average_altitude_meters : ℝ :=
      (selfImages.map (fun image => image.altitude)).sum / (globalImages.length : ℝ)
    let image_width_in_meters :=
      2 * Real.tan (radians (horizontal_angle_of_view / 2)) * average_altitude_meters
    let image_width_in_feet := meters_to_feet image_width_in_meters
    if image_width_in_feet = 0 then .error "ZeroDivisionError"
    else .ok (IMAGE_WIDTH / image_width_in_feet)

/-- The state Mosaic.__init__ builds: corners, scale, and the canvas. -/
structure MosaicState where
  top_left_lat_long : Point
  bottom_right_lat_long : Point
  pixels_per_foot : ℝ
  mosaic_image : Canvas

/-- Mosaic.__init__ in order: corners, then pixels_per_foot (which raises on
an empty list), then the canvas; a None corner reaching the distance
primitive in _create_mosaic_image would raise a TypeError. -/
noncomputable def Mosaic_init (dist : Dist) (selfImages globalImages : List DroneImage) :
    Except String MosaicState :=
  let corners := get_mosaic_lat_long_corners selfImages
  match calculate_pixels_per_foot_checked selfImages globalImages with
  | .error e => .error e
  | .ok ppf =>
    match corners with
    | ((some tlLat, some tlLong), (some brLat, some brLong)) =>
      .ok { top_left_lat_long := (tlLat, tlLong),
            bottom_right_lat_long := (brLat, brLong),
            pixels_per_foot := ppf,
            mosaic_image := create_mosaic_image dist ppf (tlLat, tlLong) (brLat, brLong) }
    | _ => .error "TypeError"

/-- A sample image record used to exercise the definitions. -/
def img100 : DroneImage :=
  { filename := "a.jpg", lat := 38, long := -123, altitude := 100,
    yaw := 0, pitch := 0, roll := 0 }

/-- A concrete geodesic-distance stand-in for witnesses: a scaled taxicab
metric, nonnegative and zero on identical points. -/
noncomputable def distTaxi : Dist :=
  fun p q => 364000 * |p.1 - q.1| + |p.2 - q.2|

lemma radians_degrees_div_two (x : ℝ) : radians (degrees x / 2) = x / 2 := by
  unfold radians degrees
  have hpi := Real.pi_ne_zero
  field_simp
  ring

lemma tan_radians_half_hAOV :
    Real.tan (radians (horizontal_angle_of_view / 2)) = 9 / 10 := by
  have h : horizontal_angle_of_view = degrees (2 * Real.arctan (9 / 10)) := by
    unfold horizontal_angle_of_view angle_of_view WIDTH_MM FOCAL_LENGTH
    norm_num
  rw [h, radians_degrees_div_two]
  have h2 : (2 : ℝ) * Real.arctan (9 / 10) / 2 = Real.arctan (9 / 10) := by ring
  rw [h2, Real.tan_arctan]

lemma calculate_pixels_per_foot_eq (selfImages globalImages : List DroneImage) :
    calculate_pixels_per_foot selfImages globalImages =
      4000 / (3.28084 * (2 * (9 / 10) *
        ((selfImages.map (fun image => image.altitude)).sum / (globalImages.length : ℝ)))) := by
  simp only [calculate_pixels_per_foot, meters_to_feet, IMAGE_WIDTH, tan_radians_half_hAOV]

lemma computeScale_spec_eq (images : List DroneImage) :
    computeScale_spec images =
      4000 / (3.28084 * (2 * (9 / 10) *
        ((images.map (fun image => image.altitude)).sum / (images.length : ℝ)))) := by
  simp only [computeScale_spec, meters_to_feet, IMAGE_WIDTH, tan_radians_half_hAOV]

/-- C1: _calculate_pixels_per_foot divides the altitude sum by
`len(images)` — the module-level global list — rather than
`len(self.images)`. On a mosaic whose own image list has one image of
altitude 100 while the global list holds two records, the computed value is
twice the spec's computeScale, so the claimed formula fails on the code. -/
theorem C1_global_length_divergence :
    calculate_pixels_per_foot [img100] [img100, img100] ≠ computeScale_spec [img100] ∧
    calculate_pixels_per_foot [img100] [img100, img100] = 2 * computeScale_spec [img100] := by
  rw [calculate_pixels_per_foot_eq, computeScale_spec_eq]
  simp only [img100, List.map_cons, List.map_nil, List.sum_cons, List.sum_nil, List.length_cons,
    List.length_nil]
  norm_num

/-- C6: for any non-empty image list with strictly positive altitudes (and a
non-empty global list, so the division is defined), the pixels-per-foot
value is strictly positive. -/
theorem C6_scale_positive (selfImages globalImages : List DroneImage)
    (hs : selfImages ≠ [])
    (halt : ∀ image ∈ selfImages, 0 < image.altitude)
    (hg : globalImages ≠ []) :
    0 < calculate_pixels_per_foot selfImages globalImages := by
  rw [calculate_pixels_per_foot_eq]
  have hsum : 0 < (selfImages.map (fun image => image.altitude)).sum := by
    apply List.sum_pos
    · intro x hx
      rcases List.mem_map.mp hx with ⟨i, hi, rfl⟩
      exact halt i hi
    · simpa using hs
  have hlen : (0 : ℝ) < (globalImages.length : ℝ) := by
    have : 0 < globalImages.length := List.length_pos.mpr hg
    exact_mod_cast this
  positivity

/-- C6 witness: the scale is positive on the singleton altitude-100 list. -/
theorem C6_scale_positive_witness : 0 < calculate_pixels_per_foot [img100] [img100] :=
  C6_scale_positive [img100] [img100] (by simp)
    (by intro image h; simp only [List.mem_singleton] at h; rw [h]; norm_num [img100])
    (by simp)

/-- C9: the horizontal distance helper depends only on the two longitudes
(both latitudes are replaced by the fixed reference 38), and the vertical
distance helper depends only on the two latitudes (both longitudes are
replaced by the fixed reference -123), for every distance primitive. -/
theorem C9_distance_noninterference (dist : Dist)
    (lat1 long1 lat2 long2 lat1' lat2' long1' long2' : ℝ) :
    horiz_distance_between_latlong_points_in_feet dist (lat1, long1) (lat2, long2) =
      horiz_distance_between_latlong_points_in_feet dist (lat1', long1) (lat2', long2) ∧
    horiz_distance_between_latlong_points_in_feet dist (lat1, long1) (lat2, long2) =
      dist (38, long1) (38, long2) ∧
    vert_distance_between_latlong_points_in_feet dist (lat1, long1) (lat2, long2) =
      vert_distance_between_latlong_points_in_feet dist (lat1, long1') (lat2, long2') ∧
    vert_distance_between_latlong_points_in_feet dist (lat1, long1) (lat2, long2) =
      dist (lat1, -123) (lat2, -123) :=
  ⟨rfl, rfl, rfl, rfl⟩

/-- C3: with roll = 0 and yaw = 90 degrees, the yaw rotation maps the
pitch-derived vertical offset entirely onto the horizontal axis: the adjusted
horizontal offset is its negation and the adjusted vertical offset is 0. -/
theorem C3_yaw_decomposition (pixels_per_foot : ℝ) (image : DroneImage)
    (hroll : image.roll = 0) (hyaw : image.yaw = 90) :
    adjusted_offsets pixels_per_foot image =
      (-(calculate_vertical_offset pixels_per_foot image), 0) := by
  have h90 : radians 90 = Real.pi / 2 := by unfold radians; ring
  have h0 : radians 0 = 0 := by unfold radians; ring
  simp only [adjusted_offsets, calculate_horizontal_offset, hroll, hyaw, h90, h0,
    Real.tan_zero, Real.sin_pi_div_two, Real.cos_pi_div_two, mul_zero, mul_one,
    meters_to_feet, zero_sub]

/-- C3 witness: a concrete image with pitch 10, roll 0, yaw 90. -/
theorem C3_yaw_decomposition_witness :
    adjusted_offsets 1
        { filename := "b.jpg", lat := 38, long := -123, altitude := 50,
          yaw := 90, pitch := 10, roll := 0 } =
      (-(calculate_vertical_offset 1
        { filename := "b.jpg", lat := 38, long := -123, altitude := 50,
          yaw := 90, pitch := 10, roll := 0 }), 0) :=
  C3_yaw_decomposition 1 _ rfl rfl

lemma truncInt_of_nonneg {x : ℝ} (h : 0 ≤ x) : truncInt x = ⌊x⌋ := by
  unfold truncInt
  rw [if_pos h]

lemma truncInt_zero : truncInt 0 = 0 := by
  rw [truncInt_of_nonneg le_rfl, Int.floor_zero]

lemma truncInt_nonneg {x : ℝ} (h : 0 ≤ x) : 0 ≤ truncInt x := by
  rw [truncInt_of_nonneg h]
  exact Int.floor_nonneg.mpr h

lemma center_snd_of_pitch_zero (dist : Dist) (pixels_per_foot : ℝ) (tl : Point)
    (image : DroneImage) (hpitch : image.pitch = 0) :
    (add_image_to_mosaic_center dist pixels_per_foot tl image).2 =
      1500 + (truncInt (dist (image.lat, -123) (tl.1, -123) * pixels_per_foot) : ℝ) := by
  have h0 : radians 0 = 0 := by unfold radians; ring
  simp only [add_image_to_mosaic_center, provisional_center, adjusted_offsets,
    calculate_vertical_offset, vert_distance_between_latlong_points_in_feet,
    distance_between_latlong_points_in_feet, hpitch, h0, Real.tan_zero, meters_to_feet,
    mul_zero, zero_mul, add_zero]

lemma center_fst_of_pitch_roll_zero (dist : Dist) (pixels_per_foot : ℝ) (tl : Point)
    (image : DroneImage) (hpitch : image.pitch = 0) (hroll : image.roll = 0) :
    (add_image_to_mosaic_center dist pixels_per_foot tl image).1 =
      2000 + (truncInt (dist (38, image.long) (38, tl.2) * pixels_per_foot) : ℝ) := by
  have h0 : radians 0 = 0 := by unfold radians; ring
  simp only [add_image_to_mosaic_center, provisional_center, adjusted_offsets,
    calculate_vertical_offset, calculate_horizontal_offset,
    horiz_distance_between_latlong_points_in_feet,
    distance_between_latlong_points_in_feet, hpitch, hroll, h0, Real.tan_zero,
    meters_to_feet, mul_zero, zero_mul, sub_zero, add_zero]

/-- C2: an image with yaw = pitch = roll = 0 whose position is the mosaic's
top-left corner (maximum latitude, minimum longitude) is centered at exactly
(2000, 1500): the offsets contribute 0 and the paste rotation angle is 0. -/
theorem C2_identity_placement (dist : Dist) (pixels_per_foot : ℝ)
    (images : List DroneImage) (image : DroneImage) (br : Option ℝ × Option ℝ)
    (hzero : ∀ p : Point, dist p p = 0)
    (hcorner : get_mosaic_lat_long_corners images = ((some image.lat, some image.long), br))
    (hyaw : image.yaw = 0) (hpitch : image.pitch = 0) (hroll : image.roll = 0) :
    add_image_to_mosaic_center dist pixels_per_foot (image.lat, image.long) image =
      (2000, 1500) ∧
    adjusted_offsets pixels_per_foot image = (0, 0) ∧
    rotation_degrees image = 0 := by
  have h0 : radians 0 = 0 := by unfold radians; ring
  have hoff : adjusted_offsets pixels_per_foot image = (0, 0) := by
    simp only [adjusted_offsets, calculate_vertical_offset, calculate_horizontal_offset,
      hpitch, hroll, hyaw, h0, Real.tan_zero, meters_to_feet, mul_zero, zero_mul,
      Real.sin_zero, Real.cos_zero, sub_zero, Prod.mk.injEq, and_self]
  refine ⟨?_, hoff, by rw [rotation_degrees, hyaw, mul_zero]⟩
  have hx : add_image_to_mosaic_center dist pixels_per_foot (image.lat, image.long) image =
      (2000 + ((truncInt (dist (38, image.long) (38, image.long) * pixels_per_foot)) : ℝ),
       1500 + ((truncInt (dist (image.lat, -123) (image.lat, -123) * pixels_per_foot)) : ℝ)) := by
    rw [Prod.ext_iff]
    exact ⟨center_fst_of_pitch_roll_zero dist pixels_per_foot _ image hpitch hroll,
      center_snd_of_pitch_zero dist pixels_per_foot _ image hpitch⟩
  rw [hx, hzero, hzero, zero_mul, truncInt_zero]
  norm_num

/-- C2 witness: a single altitude-100 image at (38, -123) with zero
orientation, placed on the mosaic made of just itself. -/
theorem C2_identity_placement_witness :
    add_image_to_mosaic_center distTaxi 1 (img100.lat, img100.long) img100 = (2000, 1500) ∧
    adjusted_offsets 1 img100 = (0, 0) ∧
    rotation_degrees img100 = 0 :=
  C2_identity_placement distTaxi 1 [img100] img100 (some 38, some (-123))
    (by intro p; simp [distTaxi]) rfl rfl rfl rfl

/-- C10: with a nonnegative distance primitive and nonnegative scale, the
provisional center of every image is at or right of x = 2000 and at or below
y = 1500, and an image with pitch = roll = 0 keeps that bound in its final
center. -/
theorem C10_anchor_lower_bound (dist : Dist) (pixels_per_foot : ℝ) (tl : Point)
    (image : DroneImage)
    (hnn : ∀ p q : Point, 0 ≤ dist p q) (hppf : 0 ≤ pixels_per_foot) :
    (2000 ≤ (provisional_center dist pixels_per_foot tl image).1 ∧
     1500 ≤ (provisional_center dist pixels_per_foot tl image).2) ∧
    (image.pitch = 0 → image.roll = 0 →
      2000 ≤ (add_image_to_mosaic_center dist pixels_per_foot tl image).1 ∧
      1500 ≤ (add_image_to_mosaic_center dist pixels_per_foot tl image).2) := by
  have hh : (0 : ℝ) ≤
      horiz_distance_between_latlong_points_in_feet dist (image.lat, image.long) tl *
        pixels_per_foot :=
    mul_nonneg (hnn _ _) hppf
  have hv : (0 : ℝ) ≤
      vert_distance_between_latlong_points_in_feet dist (image.lat, image.long) tl *
        pixels_per_foot :=
    mul_nonneg (hnn _ _) hppf
  have hprov1 : 2000 ≤ (provisional_center dist pixels_per_foot tl image).1 := by
    simp only [provisional_center]
    have := truncInt_nonneg hh
    have hcast : (0 : ℝ) ≤ ((truncInt
        (horiz_distance_between_latlong_points_in_feet dist (image.lat, image.long) tl *
          pixels_per_foot)) : ℝ) := by exact_mod_cast this
    linarith
  have hprov2 : 1500 ≤ (provisional_center dist pixels_per_foot tl image).2 := by
    simp only [provisional_center]
    have := truncInt_nonneg hv
    have hcast : (0 : ℝ) ≤ ((truncInt
        (vert_distance_between_latlong_points_in_feet dist (image.lat, image.long) tl *
          pixels_per_foot)) : ℝ) := by exact_mod_cast this
    linarith
  refine ⟨⟨hprov1, hprov2⟩, fun hpitch hroll => ⟨?_, ?_⟩⟩
  · rw [center_fst_of_pitch_roll_zero dist pixels_per_foot tl image hpitch hroll]
    have h1 : (0 : ℝ) ≤ dist (38, image.long) (38, tl.2) * pixels_per_foot :=
      mul_nonneg (hnn _ _) hppf
    have := truncInt_nonneg h1
    have hcast : (0 : ℝ) ≤ ((truncInt (dist (38, image.long) (38, tl.2) * pixels_per_foot)) : ℝ) :=
      by exact_mod_cast this
    linarith
  · rw [center_snd_of_pitch_zero dist pixels_per_foot tl image hpitch]
    have h1 : (0 : ℝ) ≤ dist (image.lat, -123) (tl.1, -123) * pixels_per_foot :=
      mul_nonneg (hnn _ _) hppf
    have := truncInt_nonneg h1
    have hcast : (0 : ℝ) ≤ ((truncInt (dist (image.lat, -123) (tl.1, -123) * pixels_per_foot)) : ℝ) :=
      by exact_mod_cast this
    linarith

/-- C10 witness: the taxicab stand-in distance, unit scale, top-left corner
(39, -124) and the sample image. -/
theorem C10_anchor_lower_bound_witness :
    (2000 ≤ (provisional_center distTaxi 1 (39, -124) img100).1 ∧
     1500 ≤ (provisional_center distTaxi 1 (39, -124) img100).2) ∧
    (img100.pitch = 0 → img100.roll = 0 →
      2000 ≤ (add_image_to_mosaic_center distTaxi 1 (39, -124) img100).1 ∧
      1500 ≤ (add_image_to_mosaic_center distTaxi 1 (39, -124) img100).2) :=
  C10_anchor_lower_bound distTaxi 1 (39, -124) img100
    (by intro p q; simp only [distTaxi]; positivity) (by norm_num)

lemma truncInt_add_int_of_nonneg {x : ℝ} (n : ℤ) (hx : 0 ≤ x) (hn : 0 ≤ n) :
    truncInt (x + n) = truncInt x + n := by
  have hxn : (0 : ℝ) ≤ x + n := by
    have : (0 : ℝ) ≤ (n : ℝ) := by exact_mod_cast hn
    linarith
  rw [truncInt_of_nonneg hxn, truncInt_of_nonneg hx, Int.floor_add_int]

/-- C7: the canvas allocated by _create_mosaic_image is exactly the
corner-to-corner extent in whole pixels plus the fixed 4000-pixel horizontal
and 3000-pixel vertical margin, in RGBA mode with white fill. -/
theorem C7_canvas_sizing (dist : Dist) (pixels_per_foot : ℝ) (tl br : Point)
    (hnn : ∀ p q : Point, 0 ≤ dist p q) (hppf : 0 ≤ pixels_per_foot) :
    (create_mosaic_image dist pixels_per_foot tl br).width =
      truncInt (pixels_per_foot *
        horiz_distance_between_latlong_points_in_feet dist tl br) + 4000 ∧
    (create_mosaic_image dist pixels_per_foot tl br).height =
      truncInt (pixels_per_foot *
        vert_distance_between_latlong_points_in_feet dist tl br) + 3000 ∧
    (create_mosaic_image dist pixels_per_foot tl br).mode = "RGBA" ∧
    (create_mosaic_image dist pixels_per_foot tl br).color = "white" := by
  have hh : (0 : ℝ) ≤ pixels_per_foot *
      horiz_distance_between_latlong_points_in_feet dist tl br :=
    mul_nonneg hppf (hnn _ _)
  have hv : (0 : ℝ) ≤ pixels_per_foot *
      vert_distance_between_latlong_points_in_feet dist tl br :=
    mul_nonneg hppf (hnn _ _)
  refine ⟨?_, ?_, rfl, rfl⟩
  · show truncInt (pixels_per_foot *
        horiz_distance_between_latlong_points_in_feet dist tl br + 4000) = _
    rw [show ((4000 : ℝ)) = ((4000 : ℤ) : ℝ) by norm_num,
      truncInt_add_int_of_nonneg 4000 hh (by norm_num)]
  · show truncInt (pixels_per_foot *
        vert_distance_between_latlong_points_in_feet dist tl br + 3000) = _
    rw [show ((3000 : ℝ)) = ((3000 : ℤ) : ℝ) by norm_num,
      truncInt_add_int_of_nonneg 3000 hv (by norm_num)]

/-- C7 witness: the taxicab stand-in distance, unit scale and the corner
points (39, -124) and (38, -123). -/
theorem C7_canvas_sizing_witness :
    (create_mosaic_image distTaxi 1 (39, -124) (38, -123)).width =
      truncInt (1 * horiz_distance_between_latlong_points_in_feet distTaxi
        (39, -124) (38, -123)) + 4000 ∧
    (create_mosaic_image distTaxi 1 (39, -124) (38, -123)).height =
      truncInt (1 * vert_distance_between_latlong_points_in_feet distTaxi
        (39, -124) (38, -123)) + 3000 ∧
    (create_mosaic_image distTaxi 1 (39, -124) (38, -123)).mode = "RGBA" ∧
    (create_mosaic_image distTaxi 1 (39, -124) (38, -123)).color = "white" :=
  C7_canvas_sizing distTaxi 1 (39, -124) (38, -123)
    (by intro p q; simp only [distTaxi]; positivity) (by norm_num)

/-- C8: constructing a Mosaic from the empty image list fails with the
ZeroDivisionError raised in _calculate_pixels_per_foot, before the canvas is
created: no MosaicState (and hence no canvas) is ever produced. -/
theorem C8_empty_image_set (dist : Dist) :
    Mosaic_init dist [] [] = .error "ZeroDivisionError" ∧
    ∀ st : MosaicState, Mosaic_init dist [] [] ≠ .ok st := by
  have h : Mosaic_init dist [] [] = .error "ZeroDivisionError" := rfl
  exact ⟨h, fun st hst => by rw [h] at hst; exact Except.noConfusion hst⟩

lemma updateMin_some (a v : ℝ) : updateMin (some a) v = some (min v a) := by
  show (if v < a then some v else some a) = some (min v a)
  rcases lt_or_le v a with h | h
  · rw [if_pos h, min_eq_left h.le]
  · rw [if_neg (not_lt.mpr h), min_eq_right h]

lemma updateMax_some (a v : ℝ) : updateMax (some a) v = some (max v a) := by
  show (if v > a then some v else some a) = some (max v a)
  rcases lt_or_le a v with h | h
  · rw [if_pos h, max_eq_left h.le]
  · rw [if_neg (not_lt.mpr h), max_eq_right h]

lemma foldl_minmax_step_fst (l : List DroneImage)
    (acc : Option ℝ × Option ℝ × Option ℝ × Option ℝ) :
    (l.foldl minmax_step acc).1 =
      l.foldl (fun m image => updateMin m image.long) acc.1 := by
  induction l generalizing acc with
  | nil => rfl
  | cons x xs ih =>
      rw [List.foldl_cons, List.foldl_cons, ih]
      rfl

lemma foldl_minmax_step_snd1 (l : List DroneImage)
    (acc : Option ℝ × Option ℝ × Option ℝ × Option ℝ) :
    (l.foldl minmax_step acc).2.1 =
      l.foldl (fun m image => updateMax m image.long) acc.2.1 := by
  induction l generalizing acc with
  | nil => rfl
  | cons x xs ih =>
      rw [List.foldl_cons, List.foldl_cons, ih]
      rfl

lemma foldl_minmax_step_snd21 (l : List DroneImage)
    (acc : Option ℝ × Option ℝ × Option ℝ × Option ℝ) :
    (l.foldl minmax_step acc).2.2.1 =
      l.foldl (fun m image => updateMin m image.lat) acc.2.2.1 := by
  induction l generalizing acc with
  | nil => rfl
  | cons x xs ih =>
      rw [List.foldl_cons, List.foldl_cons, ih]
      rfl

lemma foldl_minmax_step_snd22 (l : List DroneImage)
    (acc : Option ℝ × Option ℝ × Option ℝ × Option ℝ) :
    (l.foldl minmax_step acc).2.2.2 =
      l.foldl (fun m image => updateMax m image.lat) acc.2.2.2 := by
  induction l generalizing acc with
  | nil => rfl
  | cons x xs ih =>
      rw [List.foldl_cons, List.foldl_cons, ih]
      rfl

lemma foldl_updateMin_some (f : DroneImage → ℝ) (l : List DroneImage) (a : ℝ) :
    l.foldl (fun m image => updateMin m (f image)) (some a) =
      some (l.foldl (fun m image => min (f image) m) a) := by
  induction l generalizing a with
  | nil => rfl
  | cons x xs ih => rw [List.foldl_cons, List.foldl_cons, updateMin_some, ih]

lemma foldl_updateMax_some (f : DroneImage → ℝ) (l : List DroneImage) (a : ℝ) :
    l.foldl (fun m image => updateMax m (f image)) (some a) =
      some (l.foldl (fun m image => max (f image) m) a) := by
  induction l generalizing a with
  | nil => rfl
  | cons x xs ih => rw [List.foldl_cons, List.foldl_cons, updateMax_some, ih]

lemma foldl_min_le_init (f : DroneImage → ℝ) (l : List DroneImage) (a : ℝ) :
    l.foldl (fun m image => min (f image) m) a ≤ a := by
  induction l generalizing a with
  | nil => exact le_rfl
  | cons x xs ih =>
      rw [List.foldl_cons]
      exact le_trans (ih (min (f x) a)) (min_le_right _ _)

lemma foldl_min_le_mem (f : DroneImage → ℝ) (l : List DroneImage) (a : ℝ)
    (i : DroneImage) (hi : i ∈ l) :
    l.foldl (fun m image => min (f image) m) a ≤ f i := by
  induction l generalizing a with
  | nil => cases hi
  | cons x xs ih =>
      rw [List.foldl_cons]
      rcases List.mem_cons.mp hi with h | h
      · subst h
        exact le_trans (foldl_min_le_init f xs _) (min_le_left _ _)
      · exact ih _ h

lemma foldl_min_attained (f : DroneImage → ℝ) (l : List DroneImage) (a : ℝ) :
    l.foldl (fun m image => min (f image) m) a = a ∨
      ∃ i ∈ l, l.foldl (fun m image => min (f image) m) a = f i := by
  induction l generalizing a with
  | nil => exact Or.inl rfl
  | cons x xs ih =>
      rw [List.foldl_cons]
      rcases ih (min (f x) a) with h | ⟨i, hi, h⟩
      · rcases min_cases (f x) a with ⟨heq, _⟩ | ⟨heq, _⟩
        · exact Or.inr ⟨x, List.mem_cons_self x xs, by rw [h, heq]⟩
        · exact Or.inl (by rw [h, heq])
      · exact Or.inr ⟨i, List.mem_cons_of_mem x hi, h⟩

lemma foldl_max_ge_init (f : DroneImage → ℝ) (l : List DroneImage) (a : ℝ) :
    a ≤ l.foldl (fun m image => max (f image) m) a := by
  induction l generalizing a with
  | nil => exact le_rfl
  | cons x xs ih =>
      rw [List.foldl_cons]
      exact le_trans (le_max_right _ _) (ih (max (f x) a))

lemma foldl_max_ge_mem (f : DroneImage → ℝ) (l : List DroneImage) (a : ℝ)
    (i : DroneImage) (hi : i ∈ l) :
    f i ≤ l.foldl (fun m image => max (f image) m) a := by
  induction l generalizing a with
  | nil => cases hi
  | cons x xs ih =>
      rw [List.foldl_cons]
      rcases List.mem_cons.mp hi with h | h
      · subst h
        exact le_trans (le_max_left _ _) (foldl_max_ge_init f xs _)
      · exact ih _ h

lemma foldl_max_attained (f : DroneImage → ℝ) (l : List DroneImage) (a : ℝ) :
    l.foldl (fun m image => max (f image) m) a = a ∨
      ∃ i ∈ l, l.foldl (fun m image => max (f image) m) a = f i := by
  induction l generalizing a with
  | nil => exact Or.inl rfl
  | cons x xs ih =>
      rw [List.foldl_cons]
      rcases ih (max (f x) a) with h | ⟨i, hi, h⟩
      · rcases max_cases (f x) a with ⟨heq, _⟩ | ⟨heq, _⟩
        · exact Or.inr ⟨x, List.mem_cons_self x xs, by rw [h, heq]⟩
        · exact Or.inl (by rw [h, heq])
      · exact Or.inr ⟨i, List.mem_cons_of_mem x hi, h⟩

/-- C5: on a non-empty image list, _get_mosaic_lat_long_corners returns
top-left = (maximum latitude, minimum longitude) and bottom-right =
(minimum latitude, maximum longitude): each coordinate is attained by some
image and bounds every image's coordinate on the right side. -/
theorem C5_bounds_correctness (images : List DroneImage) (h : images ≠ []) :
    ∃ tlLat tlLong brLat brLong,
      get_mosaic_lat_long_corners images =
        ((some tlLat, some tlLong), (some brLat, some brLong)) ∧
      (∃ i ∈ images, tlLat = i.lat) ∧ (∃ i ∈ images, tlLong = i.long) ∧
      (∃ i ∈ images, brLat = i.lat) ∧ (∃ i ∈ images, brLong = i.long) ∧
      ∀ i ∈ images, i.lat ≤ tlLat ∧ brLat ≤ i.lat ∧ tlLong ≤ i.long ∧ i.long ≤ brLong := by
  obtain ⟨x, xs, rfl⟩ := List.exists_cons_of_ne_nil h
  have hstep : minmax_step (none, none, none, none) x =
      (some x.long, some x.long, some x.lat, some x.lat) := rfl
  have hfold : get_min_max_long_and_lat (x :: xs) =
      xs.foldl minmax_step (some x.long, some x.long, some x.lat, some x.lat) := by
    rw [get_min_max_long_and_lat, List.foldl_cons, hstep]
  refine ⟨xs.foldl (fun m image => max image.lat m) x.lat,
    xs.foldl (fun m image => min image.long m) x.long,
    xs.foldl (fun m image => min image.lat m) x.lat,
    xs.foldl (fun m image => max image.long m) x.long, ?_, ?_, ?_, ?_, ?_, ?_⟩
  · rw [get_mosaic_lat_long_corners, hfold]
    have h1 : (xs.foldl minmax_step
        (some x.long, some x.long, some x.lat, some x.lat)).2.2.2 =
        some (xs.foldl (fun m image => max image.lat m) x.lat) :=
      (foldl_minmax_step_snd22 xs _).trans
        (foldl_updateMax_some (fun image => image.lat) xs x.lat)
    have h2 : (xs.foldl minmax_step
        (some x.long, some x.long, some x.lat, some x.lat)).1 =
        some (xs.foldl (fun m image => min image.long m) x.long) :=
      (foldl_minmax_step_fst xs _).trans
        (foldl_updateMin_some (fun image => image.long) xs x.long)
    have h3 : (xs.foldl minmax_step
        (some x.long, some x.long, some x.lat, some x.lat)).2.2.1 =
        some (xs.foldl (fun m image => min image.lat m) x.lat) :=
      (foldl_minmax_step_snd21 xs _).trans
        (foldl_updateMin_some (fun image => image.lat) xs x.lat)
    have h4 : (xs.foldl minmax_step
        (some x.long, some x.long, some x.lat, some x.lat)).2.1 =
        some (xs.foldl (fun m image => max image.long m) x.long) :=
      (foldl_minmax_step_snd1 xs _).trans
        (foldl_updateMax_some (fun image => image.long) xs x.long)
    rw [h1, h2, h3, h4]
  · rcases foldl_max_attained (fun image => image.lat) xs x.lat with heq | ⟨i, hi, heq⟩
    · exact ⟨x, List.mem_cons_self x xs, heq⟩
    · exact ⟨i, List.mem_cons_of_mem x hi, heq⟩
  · rcases foldl_min_attained (fun image => image.long) xs x.long with heq | ⟨i, hi, heq⟩
    · exact ⟨x, List.mem_cons_self x xs, heq⟩
    · exact ⟨i, List.mem_cons_of_mem x hi, heq⟩
  · rcases foldl_min_attained (fun image => image.lat) xs x.lat with heq | ⟨i, hi, heq⟩
    · exact ⟨x, List.mem_cons_self x xs, heq⟩
    · exact ⟨i, List.mem_cons_of_mem x hi, heq⟩
  · rcases foldl_max_attained (fun image => image.long) xs x.long with heq | ⟨i, hi, heq⟩
    · exact ⟨x, List.mem_cons_self x xs, heq⟩
    · exact ⟨i, List.mem_cons_of_mem x hi, heq⟩
  · intro i hi
    rcases List.mem_cons.mp hi with hx | hxs
    · subst hx
      exact ⟨foldl_max_ge_init _ xs _, foldl_min_le_init _ xs _,
        foldl_min_le_init _ xs _, foldl_max_ge_init _ xs _⟩
    · exact ⟨foldl_max_ge_mem _ xs _ i hxs, foldl_min_le_mem _ xs _ i hxs,
        foldl_min_le_mem _ xs _ i hxs, foldl_max_ge_mem _ xs _ i hxs⟩

/-- C5 witness: the corners of the singleton list of the sample image. -/
theorem C5_bounds_correctness_witness :
    ∃ tlLat tlLong brLat brLong,
      get_mosaic_lat_long_corners [img100] =
        ((some tlLat, some tlLong), (some brLat, some brLong)) ∧
      (∃ i ∈ [img100], tlLat = i.lat) ∧ (∃ i ∈ [img100], tlLong = i.long) ∧
      (∃ i ∈ [img100], brLat = i.lat) ∧ (∃ i ∈ [img100], brLong = i.long) ∧
      ∀ i ∈ [img100], i.lat ≤ tlLat ∧ brLat ≤ i.lat ∧ tlLong ≤ i.long ∧ i.long ≤ brLong :=
  C5_bounds_correctness [img100] (by simp)

/-- The first image of the end-to-end scenario: altitude 100 m, zero
orientation, at (38.0000, -123.0000). -/
def imgC4a : DroneImage :=
  { filename := "c4a.jpg", lat := 38, long := -123, altitude := 100,
    yaw := 0, pitch := 0, roll := 0 }

/-- The second image of the end-to-end scenario: altitude 100 m, zero
orientation, at (38.0010, -123.0000). -/
def imgC4b : DroneImage :=
  { filename := "c4b.jpg", lat := 38.0010, long := -123, altitude := 100,
    yaw := 0, pitch := 0, roll := 0 }

lemma ppfC4_bounds :
    6 ≤ calculate_pixels_per_foot [imgC4a, imgC4b] [imgC4a, imgC4b] ∧
    calculate_pixels_per_foot [imgC4a, imgC4b] [imgC4a, imgC4b] ≤ 7 := by
  rw [calculate_pixels_per_foot_eq]
  simp only [imgC4a, imgC4b, List.map_cons, List.map_nil, List.sum_cons, List.sum_nil,
    List.length_cons, List.length_nil]
  norm_num

/-- C4: for the mosaic of the two scenario images, the higher-latitude image
(placed at the top-left corner) gets a strictly smaller placement y than the
other, and the y difference matches the vertical distance between the two
positions times pixels-per-foot within one pixel of rounding. -/
theorem C4_end_to_end_ordering (dist : Dist)
    (hzero : ∀ p : Point, dist p p = 0)
    (hfar : 300 ≤ dist (38, -123) (38.0010, -123)) :
    get_mosaic_lat_long_corners [imgC4a, imgC4b] =
      ((some 38.0010, some (-123)), (some 38, some (-123))) ∧
    (add_image_to_mosaic_center dist
        (calculate_pixels_per_foot [imgC4a, imgC4b] [imgC4a, imgC4b])
        (38.0010, -123) imgC4b).2 <
      (add_image_to_mosaic_center dist
        (calculate_pixels_per_foot [imgC4a, imgC4b] [imgC4a, imgC4b])
        (38.0010, -123) imgC4a).2 ∧
    |((add_image_to_mosaic_center dist
          (calculate_pixels_per_foot [imgC4a, imgC4b] [imgC4a, imgC4b])
          (38.0010, -123) imgC4a).2 -
        (add_image_to_mosaic_center dist
          (calculate_pixels_per_foot [imgC4a, imgC4b] [imgC4a, imgC4b])
          (38.0010, -123) imgC4b).2) -
      vert_distance_between_latlong_points_in_feet dist (38, -123) (38.0010, -123) *
        calculate_pixels_per_foot [imgC4a, imgC4b] [imgC4a, imgC4b]| ≤ 1 := by
  obtain ⟨hppf6, hppf7⟩ := ppfC4_bounds
  set ppf := calculate_pixels_per_foot [imgC4a, imgC4b] [imgC4a, imgC4b] with hppf
  set D := dist (38, -123) (38.0010, -123) with hD
  have hz0 : (0 : ℝ) ≤ D * ppf := mul_nonneg (by linarith) (by linarith)
  have hz1 : (1 : ℝ) ≤ D * ppf := by nlinarith
  have hc1 : (add_image_to_mosaic_center dist ppf (38.0010, -123) imgC4a).2 =
      1500 + ((⌊D * ppf⌋ : ℤ) : ℝ) := by
    rw [center_snd_of_pitch_zero dist ppf (38.0010, -123) imgC4a rfl]
    rw [show ((imgC4a.lat, (-123 : ℝ)) : Point) = ((38 : ℝ), (-123 : ℝ)) from rfl]
    rw [show (((38.0010 : ℝ), (-123 : ℝ)).1, (-123 : ℝ)) = ((38.0010 : ℝ), (-123 : ℝ)) from rfl]
    rw [← hD, truncInt_of_nonneg hz0]
  have hc2 : (add_image_to_mosaic_center dist ppf (38.0010, -123) imgC4b).2 = 1500 := by
    rw [center_snd_of_pitch_zero dist ppf (38.0010, -123) imgC4b rfl]
    rw [show ((imgC4b.lat, (-123 : ℝ)) : Point) = ((38.0010 : ℝ), (-123 : ℝ)) from rfl]
    rw [show (((38.0010 : ℝ), (-123 : ℝ)).1, (-123 : ℝ)) = ((38.0010 : ℝ), (-123 : ℝ)) from rfl]
    rw [hzero, zero_mul, truncInt_zero]
    norm_num
  have hfloor1 : (1 : ℤ) ≤ ⌊D * ppf⌋ := Int.le_floor.mpr (by exact_mod_cast hz1)
  have hfloor1R : (1 : ℝ) ≤ ((⌊D * ppf⌋ : ℤ) : ℝ) := by exact_mod_cast hfloor1
  have hfl_le : ((⌊D * ppf⌋ : ℤ) : ℝ) ≤ D * ppf := Int.floor_le _
  have hfl_gt : D * ppf < ((⌊D * ppf⌋ : ℤ) : ℝ) + 1 := Int.lt_floor_add_one _
  refine ⟨?_, ?_, ?_⟩
  · show get_mosaic_lat_long_corners [imgC4a, imgC4b] = _
    rw [get_mosaic_lat_long_corners, get_min_max_long_and_lat, List.foldl_cons,
      List.foldl_cons, List.foldl_nil]
    rw [show minmax_step (none, none, none, none) imgC4a =
      (some (-123), some (-123), some 38, some 38) from rfl]
    rw [show minmax_step (some (-123), some (-123), some 38, some 38) imgC4b =
      (updateMin (some (-123)) (-123), updateMax (some (-123)) (-123),
       updateMin (some 38) 38.0010, updateMax (some 38) 38.0010) from rfl]
    rw [updateMin_some, updateMax_some, updateMin_some, updateMax_some]
    norm_num
  · rw [hc1, hc2]
    linarith
  · rw [hc1, hc2]
    rw [show vert_distance_between_latlong_points_in_feet dist (38, -123) (38.0010, -123) =
      D from rfl]
    rw [abs_le]
    constructor
    · linarith
    · linarith

/-- C4 witness: the taxicab stand-in distance realizes the two scenario
hypotheses (zero self-distance, corner separation at least 300 feet). -/
theorem C4_end_to_end_ordering_witness :
    get_mosaic_lat_long_corners [imgC4a, imgC4b] =
      ((some 38.0010, some (-123)), (some 38, some (-123))) ∧
    (add_image_to_mosaic_center distTaxi
        (calculate_pixels_per_foot [imgC4a, imgC4b] [imgC4a, imgC4b])
        (38.0010, -123) imgC4b).2 <
      (add_image_to_mosaic_center distTaxi
        (calculate_pixels_per_foot [imgC4a, imgC4b] [imgC4a, imgC4b])
        (38.0010, -123) imgC4a).2 ∧
    |((add_image_to_mosaic_center distTaxi
          (calculate_pixels_per_foot [imgC4a, imgC4b] [imgC4a, imgC4b])
          (38.0010, -123) imgC4a).2 -
        (add_image_to_mosaic_center distTaxi
          (calculate_pixels_per_foot [imgC4a, imgC4b] [imgC4a, imgC4b])
          (38.0010, -123) imgC4b).2) -
      vert_distance_between_latlong_points_in_feet distTaxi (38, -123) (38.0010, -123) *
        calculate_pixels_per_foot [imgC4a, imgC4b] [imgC4a, imgC4b]| ≤ 1 :=
  C4_end_to_end_ordering distTaxi
    (by intro p; simp [distTaxi])
    (by
      simp only [distTaxi]
      rw [abs_sub_comm, abs_of_nonneg (by norm_num : (0 : ℝ) ≤ (38.0010 : ℝ) - 38)]
      norm_num)

end Mosaic
